import Mathlib

/-!
# Verification of the clink spec-resolution and parsing subsystem

A shallow embedding, in Lean 4, of the `clink` subsystem of
`pal-mcp-server`: the configuration registry (`clink/registry.py`), the
dynamic class loader (`clink/loader.py`), the agent/parser factory
functions (`clink/agents/__init__.py`, `clink/parsers/__init__.py`) and
the NDJSON response parsers (`clink/parsers/cursor.py`,
`clink/parsers/opencode.py`).

Python strings are modelled as Lean `String`, with the handful of
`str` methods the code uses re-implemented over `String.data` character
lists (`pyStrip`, `pyLower`, ...) so that every definition evaluates by
kernel reduction.  Python dicts are modelled as insertion-ordered
association lists with string keys (`dictGet`, `dictInsert`), which is
exactly the observable behaviour of CPython dicts in this code base.
JSON values are modelled by the inductive `Json`; JSON numbers are
modelled as integers, which covers every numeric field a claim touches.
-/

/-! ## Models of the Python string primitives used by the source -/

/-- Leading-whitespace removal on a character list. -/
def pyStripL (l : List Char) : List Char := l.dropWhile Char.isWhitespace

/-- Model of Python `str.strip()`: remove leading and trailing whitespace. -/
def pyStrip (s : String) : String := ⟨pyStripL (pyStripL s.data.reverse).reverse⟩

/-- Model of Python truthiness of a string: `""` is falsy. -/
def pyEmpty (s : String) : Bool := s.data.isEmpty

/-- ASCII lower-casing of one character (all names in this code base are ASCII). -/
def pyLowerChar (c : Char) : Char :=
  if 'A' ≤ c ∧ c ≤ 'Z' then Char.ofNat (c.toNat + 32) else c

/-- Model of Python `str.lower()`. -/
def pyLower (s : String) : String := ⟨s.data.map pyLowerChar⟩

/-- Does the second list start with the first? -/
def hasStart : List Char → List Char → Bool
  | [], _ => true
  | _ :: _, [] => false
  | c :: cs, d :: ds => c = d && hasStart cs ds

/-- Model of Python `str.startswith(pre)`. -/
def pyStarts (s pre : String) : Bool := hasStart pre.data s.data

/-- Model of Python slicing `s[n:]` (all prefixes sliced off in the source are ASCII). -/
def pyDrop (s : String) (n : Nat) : String := ⟨s.data.drop n⟩

/-- Model of Python `c in s` for a single character. -/
def pyHasChar (s : String) (c : Char) : Bool := s.data.contains c

/-- Strict lexicographic order on character lists (Python string `<`). -/
def lexLt : List Char → List Char → Bool
  | [], [] => false
  | [], _ :: _ => true
  | _ :: _, [] => false
  | c :: cs, d :: ds => if c < d then true else if d < c then false else lexLt cs ds

/-- Python string comparison `a < b`. -/
def strLt (a b : String) : Bool := lexLt a.data b.data

/-- Insert a string into a `strLt`-sorted list. -/
def insertSorted (s : String) : List String → List String
  | [] => [s]
  | t :: ts => if strLt s t then s :: t :: ts else t :: insertSorted s ts

/-- Model of Python `sorted` on a list of strings. -/
def sortStrings (l : List String) : List String := l.foldr insertSorted []

/-- Model of Python `sep.join(parts)`. -/
def pyJoin (sep : String) : List String → String
  | [] => ""
  | [s] => s
  | s :: ss => s ++ sep ++ pyJoin sep ss

/-- Helper for `pySplitWs`: split a character list at whitespace,
carrying the (reversed) current word. -/
def splitWsChars : List Char → List Char → List String
  | [], acc => if acc.isEmpty then [] else [⟨acc.reverse⟩]
  | c :: cs, acc =>
    if c.isWhitespace then
      (if acc.isEmpty then [] else [⟨acc.reverse⟩]) ++ splitWsChars cs []
    else splitWsChars cs (c :: acc)

/-- Model of Python `str.split()` (split on whitespace, drop empty words).
This is also our model of `shlex.split` for quote-free command strings:
no command string appearing in a claim or witness contains quoting. -/
def pySplitWs (s : String) : List String := splitWsChars s.data []

/-! ## Models of the Python dict primitives used by the source -/

/-- Model of `d[k]` / `d.get(k)`: first (unique) binding of `k`. -/
def dictGet {α : Type} (k : String) : List (String × α) → Option α
  | [] => none
  | (k', v) :: rest => if k' = k then some v else dictGet k rest

/-- Model of `d[k] = v` on an insertion-ordered dict: overwrite in place,
or append a fresh key at the end. -/
def dictInsert {α : Type} (k : String) (v : α) : List (String × α) → List (String × α)
  | [] => [(k, v)]
  | (k', v') :: rest => if k' = k then (k, v) :: rest else (k', v') :: dictInsert k v rest

/-- Model of `d.keys()` (insertion order). -/
def dictKeys {α : Type} (d : List (String × α)) : List String := d.map Prod.fst

/-- Model of Python falsy-`or` on optional strings:
`a or b` where `a` is `None` or a string. -/
def pyOrOptStr (a b : Option String) : Option String :=
  match a with
  | some s => if pyEmpty s then b else some s
  | none => b

/-- Model of Python falsy-`or` where the fallback is a plain string. -/
def pyOrStr (a : Option String) (b : String) : String :=
  match a with
  | some s => if pyEmpty s then b else s
  | none => b

/-! ## JSON values (`json.loads` output) -/

/-- A decoded JSON value.  Numbers are modelled as integers: no claim
inspects a fractional numeric field. -/
inductive Json where
  | null
  | bool (b : Bool)
  | num (n : Int)
  | str (s : String)
  | arr (xs : List Json)
  | obj (fields : List (String × Json))

/-- Python truthiness of a decoded JSON value. -/
def Json.truthy : Json → Bool
  | .null => false
  | .bool b => b
  | .num n => n != 0
  | .str s => !pyEmpty s
  | .arr xs => !xs.isEmpty
  | .obj fs => !fs.isEmpty

/-- Model of `event.get(k)` on a decoded JSON object (`None` when absent).
The source only calls `.get` on values that are dicts; on any other
value the model returns `none`. -/
def Json.get? : Json → String → Option Json
  | .obj fs, k => dictGet k fs
  | _, _ => none

/-- Model of `event.get(k, d)` with a default.  Note that, as in Python,
an explicit JSON `null` value is returned as `null`, not as the default. -/
def Json.getD (j : Json) (k : String) (d : Json) : Json := (j.get? k).getD d

/-- Model of `event.get(k, d)` where the source immediately treats the
value as a string (the protocols only put strings in these fields). -/
def Json.getStrD (j : Json) (k : String) (d : String) : String :=
  match j.get? k with
  | some (.str s) => s
  | _ => d

/-- Model of `event.get(k)` under Python's JSON decoding, where a JSON
`null` decodes to `None`: absent and `null` are both `none`. -/
def Json.getNN? (j : Json) (k : String) : Option Json :=
  match j.get? k with
  | some .null => none
  | some v => some v
  | none => none

/-- Truthiness of an optional value (`None` is falsy). -/
def optTruthy : Option Json → Bool
  | none => false
  | some v => v.truthy

/-- Does this optional JSON value equal the given string
(Python `event.get(k) == "lit"`)? -/
def isStrVal (o : Option Json) (s : String) : Bool :=
  match o with
  | some (.str t) => t = s
  | _ => false

/-! ## Raw stdout lines

The lexical stage of both NDJSON parsers - `splitlines()`, `strip()`,
dropping blank lines, the `startswith("{")` test and `json.loads` - is
modelled by `RawLine`: `event e` stands for a line that strips to a
string starting with `{` and decodes to the JSON object `e`; `junk`
stands for every other line (blank, not `{`-initial, or malformed JSON,
all of which the source skips). -/
inductive RawLine where
  | junk (s : String)
  | event (e : Json)

/-- The decoded JSON objects of a line sequence, in order. -/
def eventsOf (lines : List RawLine) : List Json :=
  lines.filterMap fun l =>
    match l with
    | .junk _ => none
    | .event e => some e

/-- `clink.parsers.base.ParsedCLIResponse`. -/
structure ParsedCLIResponse where
  content : String
  metadata : List (String × Json)

/-- Conditionally-present metadata entry. -/
def optEntry (b : Bool) (k : String) (v : Json) : List (String × Json) :=
  if b then [(k, v)] else []

/-! ## `clink/parsers/cursor.py` - `CursorNDJSONParser.parse` -/

/-- `event.get("type") == "assistant"`. -/
def isAssistantEvent (e : Json) : Bool := isStrVal (e.get? "type") "assistant"

/-- `event.get("type") == "tool_call"`. -/
def isToolCallEvent (e : Json) : Bool := isStrVal (e.get? "type") "tool_call"

/-- `event.get("type") == "result" and event.get("subtype") == "success"`. -/
def isCursorTerminal (e : Json) : Bool :=
  isStrVal (e.get? "type") "result" && isStrVal (e.get? "subtype") "success"

/-- `event.get("message", {}).get("content", [])`, as a list of blocks. -/
def contentBlocks (e : Json) : List Json :=
  match (e.getD "message" (.obj [])).getD "content" (.arr []) with
  | .arr xs => xs
  | _ => []

/-- The non-blank stripped `text` fields of an assistant message's
`"text"` content blocks. -/
def assistantTexts (e : Json) : List String :=
  (contentBlocks e).filterMap fun b =>
    if isStrVal (b.get? "type") "text" then
      let t := pyStrip (b.getStrD "text" "")
      if pyEmpty t then none else some t
    else none

/-- The fragments one event contributes to `assistant_messages`. -/
def cursorFragments (e : Json) : List String :=
  if isAssistantEvent e then assistantTexts e else []

/-- The accumulators of the `for line in lines` loop in
`CursorNDJSONParser.parse`. -/
structure CursorState where
  events : List Json
  msgs : List String
  tool_calls : List Json
  terminal : Option Json
  session : Option Json

def cursorInit : CursorState := ⟨[], [], [], none, none⟩

/-- One iteration of the cursor event loop.  The source updates the
accumulators sequentially under an `if`/`elif` chain on the `type`
discriminator; since the three guards are mutually exclusive and each
accumulator is touched by exactly one branch (plus the unconditional
`events.append` and the session capture that precedes the chain), the
loop body is this simultaneous record update. -/
def cursorStep (st : CursorState) (e : Json) : CursorState where
  events := st.events ++ [e]
  msgs := st.msgs ++ cursorFragments e
  tool_calls := st.tool_calls ++ (if isToolCallEvent e then [e] else [])
  terminal := if isCursorTerminal e then some e else st.terminal
  session := if optTruthy st.session then st.session else e.get? "session_id"

/-- The whole event loop: junk lines are skipped, decoded events are fed
to `cursorStep`. -/
def cursorScan (stdout : List RawLine) : CursorState :=
  stdout.foldl
    (fun st l =>
      match l with
      | .junk _ => st
      | .event e => cursorStep st e)
    cursorInit

/-- `terminal_result.get("result", "").strip()`. -/
def cursorTerminalText (t : Json) : String := pyStrip (t.getStrD "result" "")

/-- `len([tc for tc in tool_calls if tc.get("subtype") == "completed"])`. -/
def countCompleted (tcs : List Json) : Nat :=
  (tcs.filter fun tc => isStrVal (tc.get? "subtype") "completed").length

/-- The metadata entries contributed by a captured terminal event. -/
def cursorTerminalMeta (t : Json) : List (String × Json) :=
  optEntry (t.getNN? "duration_ms").isSome "duration_ms" ((t.getNN? "duration_ms").getD .null)
    ++ optEntry (t.getNN? "duration_api_ms").isSome "duration_api_ms"
        ((t.getNN? "duration_api_ms").getD .null)
    ++ optEntry (optTruthy (t.getNN? "request_id")) "request_id"
        ((t.getNN? "request_id").getD .null)
    ++ [("is_error", t.getD "is_error" (.bool false))]

/-- The metadata dict built at the end of `CursorNDJSONParser.parse`,
in assignment order. -/
def cursorMetadata (st : CursorState) (stderr : String) : List (String × Json) :=
  [("events", Json.arr st.events)]
    ++ (match st.terminal with
        | some t => cursorTerminalMeta t
        | none => [])
    ++ optEntry (optTruthy st.session) "session_id" (st.session.getD .null)
    ++ (if !st.tool_calls.isEmpty then
          [("tool_calls", Json.arr st.tool_calls),
            ("tool_call_count", Json.num (countCompleted st.tool_calls))]
        else [])
    ++ optEntry (!pyEmpty (pyStrip stderr)) "stderr" (Json.str (pyStrip stderr))

/-- `CursorNDJSONParser.parse`.  A raised `ParserError` is the `error`
case, carrying the exception message. -/
def CursorNDJSONParser.parse (stdout : List RawLine) (stderr : String) :
    Except String ParsedCLIResponse :=
  let st := cursorScan stdout
  let content0 :=
    match st.terminal with
    | some t => cursorTerminalText t
    | none => ""
  let content :=
    if pyEmpty content0 && !st.msgs.isEmpty then pyJoin "\n\n" st.msgs else content0
  if pyEmpty content then
    let stderrText := pyStrip stderr
    if !pyEmpty stderrText then
      .error ("Cursor CLI returned no result. stderr: " ++ stderrText)
    else
      .error "Cursor CLI stream-json output did not contain a result"
  else
    .ok { content := content, metadata := cursorMetadata st stderr }

/-! ## `clink/parsers/opencode.py` - `OpenCodeJSONParser.parse` -/

/-- `event.get("type") == "text"`. -/
def isOpenTextEvent (e : Json) : Bool := isStrVal (e.get? "type") "text"

/-- `event.get("type") in ("tool_use", "tool_result")`. -/
def isOpenToolEvent (e : Json) : Bool :=
  isStrVal (e.get? "type") "tool_use" || isStrVal (e.get? "type") "tool_result"

/-- `event.get("type") == "step_finish"`. -/
def isStepFinishEvent (e : Json) : Bool := isStrVal (e.get? "type") "step_finish"

/-- The (zero or one) stripped non-blank text fragment a `text` event
contributes to `text_parts`. -/
def openTextOf (e : Json) : List String :=
  if isOpenTextEvent e then
    let t := pyStrip ((e.getD "part" (.obj [])).getStrD "text" "")
    if pyEmpty t then [] else [t]
  else []

/-- The accumulators of the event loop in `OpenCodeJSONParser.parse`. -/
structure OpenCodeState where
  events : List Json
  text_parts : List String
  tool_events : List Json
  step_finish : Option Json
  session : Option Json

def openCodeInit : OpenCodeState := ⟨[], [], [], none, none⟩

/-- One iteration of the opencode event loop (same simultaneous-update
reading as `cursorStep`; the session key here is `sessionID`). -/
def openCodeStep (st : OpenCodeState) (e : Json) : OpenCodeState where
  events := st.events ++ [e]
  text_parts := st.text_parts ++ openTextOf e
  tool_events := st.tool_events ++ (if isOpenToolEvent e then [e] else [])
  step_finish := if isStepFinishEvent e then some e else st.step_finish
  session := if optTruthy st.session then st.session else e.get? "sessionID"

def openCodeScan (stdout : List RawLine) : OpenCodeState :=
  stdout.foldl
    (fun st l =>
      match l with
      | .junk _ => st
      | .event e => openCodeStep st e)
    openCodeInit

/-- The metadata contributed by a captured `step_finish` event. -/
def openFinishMeta (f : Json) : List (String × Json) :=
  let part := f.getD "part" (.obj [])
  let tokens := part.getD "tokens" (.obj [])
  (if tokens.truthy then
      [("tokens", tokens),
        ("input_tokens", tokens.getD "input" (.num 0)),
        ("output_tokens", tokens.getD "output" (.num 0)),
        ("reasoning_tokens", tokens.getD "reasoning" (.num 0))]
        ++ (let cache := tokens.getD "cache" (.obj [])
            if cache.truthy then
              [("cache_read", cache.getD "read" (.num 0)),
                ("cache_write", cache.getD "write" (.num 0))]
            else [])
    else [])
    ++ optEntry (part.getNN? "cost").isSome "cost" ((part.getNN? "cost").getD .null)
    ++ optEntry (optTruthy (part.getNN? "reason")) "finish_reason"
        ((part.getNN? "reason").getD .null)

/-- The metadata dict built at the end of `OpenCodeJSONParser.parse`. -/
def openCodeMetadata (st : OpenCodeState) (stderr : String) : List (String × Json) :=
  [("events", Json.arr st.events)]
    ++ (match st.step_finish with
        | some f => openFinishMeta f
        | none => [])
    ++ optEntry (optTruthy st.session) "session_id" (st.session.getD .null)
    ++ (if !st.tool_events.isEmpty then
          [("tool_events", Json.arr st.tool_events),
            ("tool_call_count",
              Json.num ((st.tool_events.filter fun e =>
                isStrVal (e.get? "type") "tool_result").length))]
        else [])
    ++ optEntry (!pyEmpty (pyStrip stderr)) "stderr" (Json.str (pyStrip stderr))

/-- `OpenCodeJSONParser.parse`. -/
def OpenCodeJSONParser.parse (stdout : List RawLine) (stderr : String) :
    Except String ParsedCLIResponse :=
  let st := openCodeScan stdout
  let content :=
    if !st.text_parts.isEmpty then pyJoin "\n\n" st.text_parts else ""
  if pyEmpty content then
    let stderrText := pyStrip stderr
    if !pyEmpty stderrText then
      .error ("OpenCode CLI returned no result. stderr: " ++ stderrText)
    else
      .error "OpenCode CLI JSON output did not contain any text response"
  else
    .ok { content := content, metadata := openCodeMetadata st stderr }

/-! ## `clink/loader.py` - dynamic class loading

Python classes are modelled by `PyType` (a name plus the names of its
ancestors), modules by their attribute dict, and the ambient process
(filesystem checks plus the effect of executing a module file) by
`World`.  The `sys.modules` cache is threaded explicitly through every
function that can import. -/

/-- A Python class: its `__name__` and the names of its proper ancestors.
No claim exercises a hierarchy deeper than one level, so listing the
ancestors flat is a faithful model of `issubclass`. -/
structure PyType where
  name : String
  bases : List String

/-- A module attribute: a class, or any non-class object. -/
inductive PyObj where
  | cls (c : PyType)
  | other

/-- A loaded Python module: its attribute dict. -/
structure PyModule where
  attrs : List (String × PyObj)

/-- The ambient process: filesystem predicates and the effect of
executing the module file at a path (an import failure is `error`). -/
structure World where
  pathExists : String → Bool
  isFile : String → Bool
  exec : String → Except String PyModule

/-- Model of `issubclass(c, base)`, the base class identified by name. -/
def isSubclassOf (c : PyType) (base : String) : Bool :=
  c.name = base || c.bases.contains base

/-- The `sys.modules` key the loader derives for a path.  The source
uses `f"clink_custom_{path.stem}_{hash(str(path.resolve())) & 0xFFFFFFFF:08x}"`;
the model keeps the whole resolved path, preserving the property that
the key is a function of the resolved path. -/
def moduleNameOf (path : String) : String := "clink_custom_" ++ path

/-- `clink.loader._import_module_from_path`.  The source registers the
fresh module in `sys.modules` before executing it and pops it again if
execution raises; single-threaded, the net effect is: cache hit returns
the cached module, successful import inserts, failed import leaves the
cache unchanged. -/
def _import_module_from_path (world : World) (cache : List (String × PyModule))
    (path : String) : List (String × PyModule) × Except String PyModule :=
  let moduleName := moduleNameOf path
  match dictGet moduleName cache with
  | some m => (cache, .ok m)
  | none =>
    match world.exec path with
    | .ok m => (dictInsert moduleName m cache, .ok m)
    | .error e => (cache, .error ("Error executing module " ++ path ++ ": " ++ e))

/-- `path_str, class_name = spec.rsplit(":", 1)` (split on the last colon). -/
def rsplitColon (s : String) : String × String :=
  let rev := s.data.reverse
  (⟨((rev.dropWhile fun c => c ≠ ':').drop 1).reverse⟩,
    ⟨(rev.takeWhile fun c => c ≠ ':').reverse⟩)

/-- `Path(p).is_absolute()` (POSIX). -/
def isAbsPath (p : String) : Bool := pyStarts p "/"

/-- `base / p` on POSIX paths. -/
def joinPath (a b : String) : String := a ++ "/" ++ b

/-- `Path(p).suffix.lower()`: the lower-cased extension of the final
path component (for the dotted filenames the claims use). -/
def pySuffix (path : String) : String :=
  let fname := (path.data.reverse.takeWhile fun c => c ≠ '/').reverse
  if fname.contains '.' then
    pyLower ⟨'.' :: (fname.reverse.takeWhile fun c => c ≠ '.').reverse⟩
  else ""

/-- Path resolution for a `path:ClassName` spec: `expanduser` (identity;
no spec in a claim uses `~`), then relative paths are joined onto the
config base directory when one is given.  `Path.resolve` is modelled as
the identity (paths in claims are already canonical). -/
def resolveSpecPath (path_str : String) (config_base_dir : Option String) : String :=
  if isAbsPath path_str then path_str
  else
    match config_base_dir with
    | some b => joinPath b path_str
    | none => path_str

/-- `clink.loader._load_from_path`. -/
def _load_from_path (world : World) (cache : List (String × PyModule)) (spec : String)
    (base : String) (config_base_dir : Option String) :
    List (String × PyModule) × Except String PyType :=
  if !pyHasChar spec ':' then
    (cache, .error ("Invalid path spec '" ++ spec ++ "'. Expected 'path/to/module.py:ClassName'"))
  else
    let parts := rsplitColon spec
    let path_str := parts.1
    let class_name := pyStrip parts.2
    if pyEmpty class_name then
      (cache, .error ("Missing class name in spec '" ++ spec ++ "'"))
    else if pyEmpty path_str then
      (cache, .error ("Missing path in spec '" ++ spec ++ "'"))
    else
      let path := resolveSpecPath path_str config_base_dir
      if !world.pathExists path then
        (cache, .error ("Module file not found: " ++ path))
      else if !world.isFile path then
        (cache, .error ("Not a file: " ++ path))
      else if pySuffix path ≠ ".py" then
        (cache, .error ("Module must be a .py file: " ++ path))
      else
        match _import_module_from_path world cache path with
        | (cache2, .error e) => (cache2, .error e)
        | (cache2, .ok m) =>
          match dictGet class_name m.attrs with
          | none =>
            let available := m.attrs.filterMap fun a =>
              match a.2 with
              | .cls c => if isSubclassOf c base && c.name ≠ base then some a.1 else none
              | .other => none
            let hint := if available.isEmpty then "" else " Available: " ++ pyJoin ", " available
            (cache2, .error ("Class '" ++ class_name ++ "' not found in " ++ path ++ "." ++ hint))
          | some .other =>
            (cache2, .error ("'" ++ class_name ++ "' in " ++ path ++ " is not a class"))
          | some (.cls c) =>
            if !isSubclassOf c base then
              (cache2, .error ("'" ++ class_name ++ "' must inherit from " ++ base
                ++ ", but inherits from " ++ pyJoin ", " c.bases))
            else
              (cache2, .ok c)

/-- `clink.loader._load_builtin`. -/
def _load_builtin (name : String) (registry : List (String × PyType)) : Except String PyType :=
  let normalized := pyLower (pyStrip name)
  if pyEmpty normalized then .error "Empty builtin name"
  else
    match dictGet normalized registry with
    | some c => .ok c
    | none =>
      .error ("Unknown builtin '" ++ name ++ "'. Available: "
        ++ pyJoin ", " (sortStrings (dictKeys registry)))

/-- `clink.loader.load_class_from_spec`. -/
def load_class_from_spec (world : World) (cache : List (String × PyModule)) (spec : String)
    (base : String) (builtin_registry : List (String × PyType))
    (config_base_dir : Option String) : List (String × PyModule) × Except String PyType :=
  if pyEmpty spec then
    (cache, .error ("Invalid spec: '" ++ spec ++ "' (must be a non-empty string)"))
  else
    let spec := pyStrip spec
    if pyStarts spec "builtin:" then
      (cache, _load_builtin (pyDrop spec 8) builtin_registry)
    else if pyHasChar spec ':' then
      _load_from_path world cache spec base config_base_dir
    else
      match dictGet spec builtin_registry with
      | some c => (cache, .ok c)
      | none =>
        if pyHasChar spec '/' || pyHasChar spec '\\' then
          (cache, .error ("Invalid spec '" ++ spec
            ++ "'. Path specs must include class name: 'path/to/module.py:ClassName'"))
        else
          (cache, .error ("Unknown spec '" ++ spec
            ++ "'. Use 'builtin:<name>' or 'path:ClassName'. Available builtins: "
            ++ pyJoin ", " (sortStrings (dictKeys builtin_registry))))

/-- `clink.loader.normalize_spec`. -/
def normalize_spec (spec : String) (builtin_registry : List (String × PyType)) : String :=
  if pyEmpty spec then spec
  else
    let spec := pyStrip spec
    if pyHasChar spec ':' || pyHasChar spec '/' || pyHasChar spec '\\' then spec
    else if (dictGet (pyLower spec) builtin_registry).isSome then "builtin:" ++ spec
    else spec

/-! ## `clink/models.py` - resolved client records -/

/-- `clink.models.OutputCaptureConfig`. -/
structure OutputCaptureConfig where
  flag_template : String
  cleanup : Bool

/-- `clink.models.CLIRoleConfig`. -/
structure CLIRoleConfig where
  prompt_path : Option String
  role_args : List String
  description : Option String

/-- `clink.models.CLIClientConfig` (after pydantic validation, so the
list coercions have already happened). -/
structure CLIClientConfig where
  name : String
  command : Option String
  working_dir : Option String
  additional_args : List String
  env : List (String × String)
  timeout_seconds : Option Nat
  roles : List (String × CLIRoleConfig)
  output_to_file : Option OutputCaptureConfig
  parser : Option String
  internal_args : List String
  default_role_prompt : Option String
  runner : Option String

/-- `clink.models.ResolvedCLIRole`. -/
structure ResolvedCLIRole where
  name : String
  prompt_path : String
  role_args : List String
  description : Option String

/-- `clink.models.ResolvedCLIClient`. -/
structure ResolvedCLIClient where
  name : String
  executable : List String
  working_dir : Option String
  internal_args : List String
  config_args : List String
  env : List (String × String)
  timeout_seconds : Nat
  parser : String
  runner : Option String
  roles : List (String × ResolvedCLIRole)
  output_to_file : Option OutputCaptureConfig
  config_source_path : Option String

/-- `p.parent` of a POSIX path string. -/
def dirName (p : String) : String :=
  ⟨((p.data.reverse.dropWhile fun c => c ≠ '/').drop 1).reverse⟩

/-- `ResolvedCLIClient.config_base_dir`. -/
def ResolvedCLIClient.config_base_dir (c : ResolvedCLIClient) : Option String :=
  match c.config_source_path with
  | some p => some (dirName p)
  | none => none

/-! ## `clink/agents/__init__.py` - agent factory -/

/-- Modelled from the spec: the builtin agent classes.  Their defining
modules `clink/agents/{base,gemini,codex,claude}.py` are not among the
sources; per spec §4.2 each builtin agent inherits from the generic
`BaseCLIAgent`. -/
def BaseCLIAgent : PyType := ⟨"BaseCLIAgent", []⟩

def GeminiAgent : PyType := ⟨"GeminiAgent", ["BaseCLIAgent"]⟩

def CodexAgent : PyType := ⟨"CodexAgent", ["BaseCLIAgent"]⟩

def ClaudeAgent : PyType := ⟨"ClaudeAgent", ["BaseCLIAgent"]⟩

/-- `clink.agents._AGENTS`, the builtin agent registry. -/
def _AGENTS : List (String × PyType) :=
  [("gemini", GeminiAgent), ("codex", CodexAgent), ("claude", ClaudeAgent)]

/-- `clink.agents.create_agent` (legacy name-based lookup).  The model
returns the class the factory instantiates. -/
def create_agent (client : ResolvedCLIClient) : PyType :=
  let agent_key := pyLower (pyOrStr client.runner client.name)
  (dictGet agent_key _AGENTS).getD BaseCLIAgent

/-- `clink.agents.create_agent_from_spec`.  The model returns the class
the factory instantiates, threading the module cache. -/
def create_agent_from_spec (world : World) (cache : List (String × PyModule))
    (client : ResolvedCLIClient) (runner_spec : Option String)
    (config_base_dir : Option String) : List (String × PyModule) × PyType :=
  let spec :=
    match runner_spec with
    | some s => some s
    | none => client.runner
  match spec with
  | none => (cache, BaseCLIAgent)
  | some s =>
    let cbd :=
      match config_base_dir with
      | some b => some b
      | none => client.config_base_dir
    let normalized := normalize_spec s _AGENTS
    match load_class_from_spec world cache normalized "BaseCLIAgent" _AGENTS cbd with
    | (cache2, .ok cls) => (cache2, cls)
    | (cache2, .error _) => (cache2, BaseCLIAgent)

/-! ## `clink/parsers/__init__.py` - parser factory -/

/-- Modelled from the spec: the builtin parser classes.  Their defining
modules `clink/parsers/{base,codex,gemini,claude}.py` are not among the
sources; each inherits from `BaseParser`, and the registry keys are the
classes' `name` attributes. -/
def BaseParser : PyType := ⟨"BaseParser", []⟩

def CodexJSONLParserType : PyType := ⟨"CodexJSONLParser", ["BaseParser"]⟩

def GeminiJSONParserType : PyType := ⟨"GeminiJSONParser", ["BaseParser"]⟩

def ClaudeJSONParserType : PyType := ⟨"ClaudeJSONParser", ["BaseParser"]⟩

/-- `clink.parsers._PARSER_CLASSES`, the builtin parser registry. -/
def _PARSER_CLASSES : List (String × PyType) :=
  [("codex_jsonl", CodexJSONLParserType), ("gemini_json", GeminiJSONParserType),
    ("claude_json", ClaudeJSONParserType)]

/-- `clink.parsers.get_parser` (the legacy builtin lookup; the Lean name
differs from the source name for lexical reasons only).  A raised
`ParserError` is the `error` case. -/
def get_parser_builtin (name : String) : Except String PyType :=
  let normalized := pyLower name
  match dictGet normalized _PARSER_CLASSES with
  | none => .error ("No parser registered for '" ++ name ++ "'")
  | some cls => .ok cls

/-- `clink.parsers.get_parser_from_spec`.  A `LoaderError` is re-raised
as a `ParserError` carrying the same message. -/
def get_parser_from_spec (world : World) (cache : List (String × PyModule)) (spec : String)
    (config_base_dir : Option String) : List (String × PyModule) × Except String PyType :=
  if pyEmpty spec then (cache, .error "Parser spec cannot be empty")
  else
    let normalized := normalize_spec spec _PARSER_CLASSES
    match load_class_from_spec world cache normalized "BaseParser" _PARSER_CLASSES
        config_base_dir with
    | (cache2, .ok cls) => (cache2, .ok cls)
    | (cache2, .error e) => (cache2, .error e)

/-! ## `clink/registry.py` - the configuration registry

The internal-defaults table (`clink/constants.py`, not among the
sources) is passed as a function from lower-cased CLI name to defaults;
filesystem existence is the predicate `fx`.  Reading and JSON-decoding
one config file is abstracted by `ConfigFile`: `badJson` stands for a
file whose `read_json_file` raises `json.JSONDecodeError`, `emptyDoc`
for one that decodes to a falsy document, and `config` for one that
decodes and pydantic-validates to a `CLIClientConfig`. -/

/-- Modelled from the spec: `clink.constants.CLIInternalDefaults`
(per spec §3, internal defaults supply a fallback executable, args, env,
timeout, parser spec, runner spec and default prompt). -/
structure CLIInternalDefaults where
  executable : Option String
  additional_args : List String
  env : List (String × String)
  timeout_seconds : Nat
  parser : String
  runner : Option String
  default_role_prompt : Option String

/-- Modelled from the spec: `clink.constants.DEFAULT_TIMEOUT_SECONDS`
(the "global fallback constant" of spec §4.3; its value is not
observable in the sources and no claim depends on it). -/
def DEFAULT_TIMEOUT_SECONDS : Nat := 30

/-- Modelled from the spec: `clink.constants.PROJECT_ROOT`. -/
def PROJECT_ROOT : String := "/project"

/-- Truthiness of an optional string (`None` and `""` are falsy). -/
def truthyOptStr : Option String → Bool
  | none => false
  | some s => !pyEmpty s

/-- Python `a or b` for an optional-integer with falsy `0`. -/
def pyOrNat (a : Option Nat) (b : Nat) : Nat :=
  match a with
  | some t => if t = 0 then b else t
  | none => b

/-- The decode outcome of one discovered config file. -/
inductive ConfigFile where
  | badJson (msg : String)
  | emptyDoc
  | config (c : CLIClientConfig)

/-- The mutable state of a `ClinkRegistry`. -/
structure RegistryState where
  _clients : List (String × ResolvedCLIClient)

namespace ClinkRegistry

/-- `ClinkRegistry._validate_custom_cli_config`: the raised error
message, if any. -/
def _validate_custom_cli_config (raw : CLIClientConfig) (source_path : String) :
    Option String :=
  let errors :=
    (if !truthyOptStr raw.command then ["'command' field is required for custom CLIs"] else [])
      ++ (if !truthyOptStr raw.parser then ["'parser' field is required for custom CLIs"] else [])
  if errors.isEmpty then none
  else
    some ("Custom CLI '" ++ raw.name ++ "' at " ++ source_path
      ++ " is missing required fields: " ++ pyJoin "; " errors)

/-- `ClinkRegistry._resolve_executable`.  As in the source, the
internal-defaults argument is accepted but never consulted: a missing
(or empty) `command` raises unconditionally. -/
def _resolve_executable (raw : CLIClientConfig)
    (_internal_defaults : Option CLIInternalDefaults) : Except String (List String) :=
  match raw.command with
  | some command =>
    if pyEmpty command then
      .error ("CLI '" ++ raw.name ++ "' must specify a 'command' in configuration")
    else
      .ok (pySplitWs command)
  | none => .error ("CLI '" ++ raw.name ++ "' must specify a 'command' in configuration")

/-- `ClinkRegistry._merge_env`: defaults first, manifest entries
override by key. -/
def _merge_env (raw : CLIClientConfig) (internal_defaults : Option CLIInternalDefaults) :
    List (String × String) :=
  let merged :=
    match internal_defaults with
    | some d => d.env.foldl (fun m kv => dictInsert kv.1 kv.2 m) []
    | none => []
  raw.env.foldl (fun m kv => dictInsert kv.1 kv.2 m) merged

/-- `ClinkRegistry._resolve_path` (`Path.resolve` modelled as identity). -/
def _resolve_path (fx : String → Bool) (candidate : String) (base_dir : String) : String :=
  if isAbsPath candidate then candidate
  else
    let candidate_path := joinPath base_dir candidate
    if fx candidate_path then candidate_path
    else joinPath PROJECT_ROOT candidate

/-- `ClinkRegistry._resolve_optional_path`. -/
def _resolve_optional_path (fx : String → Bool) (candidate : Option String)
    (base_dir : String) : Option String :=
  if !truthyOptStr candidate then none
  else some (_resolve_path fx (candidate.getD "") base_dir)

/-- The per-role body of the loop in `ClinkRegistry._resolve_roles`. -/
def _resolve_role_list (fx : String → Bool) (cli_name : String)
    (default_role_prompt : Option String) (source_dir : String) :
    List (String × CLIRoleConfig) → Except String (List (String × ResolvedCLIRole))
  | [] => .ok []
  | (role_name, rc) :: rest =>
    let prompt := pyOrOptStr rc.prompt_path default_role_prompt
    if !truthyOptStr prompt then
      .error ("Role '" ++ role_name ++ "' for CLI '" ++ cli_name
        ++ "' must define a prompt_path")
    else
      let resolved := _resolve_path fx (prompt.getD "") source_dir
      if !fx resolved then .error ("Prompt file not found: " ++ resolved)
      else
        match _resolve_role_list fx cli_name default_role_prompt source_dir rest with
        | .error e => .error e
        | .ok rs =>
          .ok ((role_name, ⟨role_name, resolved, rc.role_args, rc.description⟩) :: rs)

/-- `ClinkRegistry._resolve_roles`: synthesize or backfill the
`"default"` role, then resolve every role's prompt path. -/
def _resolve_roles (fx : String → Bool) (raw : CLIClientConfig)
    (default_role_prompt : Option String) (source_dir : String) :
    Except String (List (String × ResolvedCLIRole)) :=
  let roles :=
    match dictGet "default" raw.roles with
    | none => raw.roles ++ [("default", ⟨default_role_prompt, [], none⟩)]
    | some rc =>
      if rc.prompt_path = none && truthyOptStr default_role_prompt then
        dictInsert "default" {rc with prompt_path := default_role_prompt} raw.roles
      else raw.roles
  _resolve_role_list fx raw.name default_role_prompt source_dir roles

/-- `ClinkRegistry._resolve_config`. -/
def _resolve_config (fx : String → Bool)
    (INTERNAL_DEFAULTS : String → Option CLIInternalDefaults)
    (raw : CLIClientConfig) (source_path : String) : Except String ResolvedCLIClient :=
  if pyEmpty raw.name then
    .error ("CLI configuration at " ++ source_path ++ " is missing a 'name' field")
  else
    let normalized_name := pyStrip raw.name
    let internal_defaults := INTERNAL_DEFAULTS (pyLower normalized_name)
    let is_custom_cli := internal_defaults.isNone
    match (if is_custom_cli then _validate_custom_cli_config raw source_path else none) with
    | some e => .error e
    | none =>
      match _resolve_executable raw internal_defaults with
      | .error e => .error e
      | .ok executable =>
        let internal_args :=
          if is_custom_cli || !raw.internal_args.isEmpty then raw.internal_args
          else
            match internal_defaults with
            | some d => d.additional_args
            | none => []
        let timeout_seconds :=
          pyOrNat raw.timeout_seconds
            (match internal_defaults with
             | some d => d.timeout_seconds
             | none => DEFAULT_TIMEOUT_SECONDS)
        let parser_spec :=
          pyOrOptStr raw.parser
            (match internal_defaults with
             | some d => some d.parser
             | none => none)
        if !truthyOptStr parser_spec then
          .error ("CLI '" ++ raw.name
            ++ "' must define a 'parser' field in configuration or have internal defaults")
        else
          let runner_spec :=
            match raw.runner with
            | some r => some r
            | none =>
              match internal_defaults with
              | some d => d.runner
              | none => none
          let env := _merge_env raw internal_defaults
          let working_dir := _resolve_optional_path fx raw.working_dir (dirName source_path)
          let default_role_prompt :=
            pyOrOptStr raw.default_role_prompt
              (match internal_defaults with
               | some d => d.default_role_prompt
               | none => none)
          match _resolve_roles fx raw default_role_prompt (dirName source_path) with
          | .error e => .error e
          | .ok roles =>
            .ok { name := normalized_name, executable := executable,
                  working_dir := working_dir, internal_args := internal_args,
                  config_args := raw.additional_args, env := env,
                  timeout_seconds := timeout_seconds, parser := parser_spec.getD "",
                  runner := runner_spec, roles := roles,
                  output_to_file := raw.output_to_file,
                  config_source_path := some source_path }

/-- The `for config_path in self._iter_config_files()` loop of
`ClinkRegistry._load`, starting from an already-cleared client dict:
returns the clients accumulated so far and the raised error, if any. -/
def _load_loop (fx : String → Bool)
    (INTERNAL_DEFAULTS : String → Option CLIInternalDefaults) :
    List (String × ConfigFile) → List (String × ResolvedCLIClient) →
    List (String × ResolvedCLIClient) × Option String
  | [], acc => (acc, none)
  | (path, f) :: rest, acc =>
    match f with
    | .badJson msg => (acc, some ("Invalid JSON in " ++ path ++ ": " ++ msg))
    | .emptyDoc => _load_loop fx INTERNAL_DEFAULTS rest acc
    | .config c =>
      match _resolve_config fx INTERNAL_DEFAULTS c path with
      | .error e => (acc, some e)
      | .ok resolved =>
        _load_loop fx INTERNAL_DEFAULTS rest (dictInsert (pyLower resolved.name) resolved acc)

/-- `ClinkRegistry._load`: `self._clients.clear()` first (discarding the
previous state), then the rebuild loop; afterwards an empty registry is
itself a fatal error.  Returns the registry state as left behind - even
when an error is raised - together with the raised error, if any. -/
def _load (fx : String → Bool) (INTERNAL_DEFAULTS : String → Option CLIInternalDefaults)
    (files : List (String × ConfigFile)) (_st : RegistryState) :
    RegistryState × Option String :=
  let r := _load_loop fx INTERNAL_DEFAULTS files []
  match r.2 with
  | some e => (⟨r.1⟩, some e)
  | none =>
    if r.1.isEmpty then
      (⟨[]⟩, some ("No CLI clients configured. Ensure conf/cli_clients contains at least "
        ++ "one definition or set CLI_CLIENTS_CONFIG_PATH."))
    else (⟨r.1⟩, none)

/-- `ClinkRegistry.reload`. -/
def reload (fx : String → Bool) (INTERNAL_DEFAULTS : String → Option CLIInternalDefaults)
    (files : List (String × ConfigFile)) (st : RegistryState) :
    RegistryState × Option String :=
  _load fx INTERNAL_DEFAULTS files st

/-- `ClinkRegistry.list_clients`. -/
def list_clients (st : RegistryState) : List String :=
  sortStrings (st._clients.map fun kv => kv.2.name)

/-- `ClinkRegistry.get_client` (a raised `KeyError` is the `error` case). -/
def get_client (st : RegistryState) (cli_name : String) : Except String ResolvedCLIClient :=
  let key := pyLower cli_name
  match dictGet key st._clients with
  | none =>
    .error ("CLI '" ++ cli_name ++ "' is not configured. Available clients: "
      ++ pyJoin ", " (list_clients st))
  | some c => .ok c

end ClinkRegistry

/-! ## Specification-side helper functions

These state properties *about* the parser state machines and are
compared against the source-derived definitions above. -/

/-- Keep only the lines that decode to JSON events. -/
def keepEventLine (l : RawLine) : Bool :=
  match l with
  | .junk _ => false
  | .event _ => true

/-- Drop the `step_finish` events from a line sequence (used to state
the "terminal event removed" half of the round-trip property). -/
def dropStepFinish (lines : List RawLine) : List RawLine :=
  lines.filter fun l =>
    match l with
    | .junk _ => true
    | .event e => !isStepFinishEvent e

/-- The "last one wins" capture of the events satisfying `p`. -/
def lastEventWhere (p : Json → Bool) : List Json → Option Json
  | [] => none
  | e :: rest =>
    match lastEventWhere p rest with
    | some t => some t
    | none => if p e then some e else none

/-- One "capture unless already captured" update (the terminal-event
component of a parser step). -/
def lastUpd (p : Json → Bool) (acc : Option Json) (e : Json) : Option Json :=
  if p e then some e else acc

/-- The session component of a parser step: keep a truthy session,
otherwise re-read the event's session field. -/
def sessUpd (key : String) (acc : Option Json) (e : Json) : Option Json :=
  if optTruthy acc then acc else e.get? key

/-- The session value of the earliest event whose session field is a
non-empty string ("first wins"). -/
def firstNonEmptySession (key : String) (evs : List Json) : Option String :=
  (evs.filterMap fun e =>
    match e.get? key with
    | some (.str s) => if pyEmpty s then none else some s
    | _ => none).head?

/-- Every event's session field, when present, is a string (the shape
the CLI protocols guarantee). -/
def sessionsWellTyped (key : String) (evs : List Json) : Bool :=
  evs.all fun e =>
    match e.get? key with
    | none => true
    | some (.str _) => true
    | some _ => false

/-! ## Concrete inputs for witnesses and counterexamples -/

/-- A world in which no path exists and every import fails. -/
def demoWorld : World := ⟨fun _ => false, fun _ => false, fun _ => .error "boom"⟩

/-- A world in which every path is a file and importing any path yields
an empty module. -/
def okWorld : World := ⟨fun _ => true, fun _ => true, fun _ => .ok ⟨[]⟩⟩

/-- A resolved client with no runner spec and no config source. -/
def demoClient : ResolvedCLIClient :=
  { name := "acme", executable := ["acme-cli"], working_dir := none, internal_args := [],
    config_args := [], env := [], timeout_seconds := 30, parser := "builtin:gemini_json",
    runner := none, roles := [], output_to_file := none, config_source_path := none }

/-- Filesystem for the registry demos: exactly one prompt file exists. -/
def demoFx : String → Bool := fun p => p == "/conf/prompts/default.md"

/-- An internal-defaults table with no entries (every CLI is custom). -/
def demoDefaults : String → Option CLIInternalDefaults := fun _ => none

/-- A well-formed custom CLI manifest. -/
def demoRaw : CLIClientConfig :=
  { name := "acme", command := some "acme-cli --flag", working_dir := none,
    additional_args := [], env := [], timeout_seconds := none, roles := [],
    output_to_file := none, parser := some "builtin:gemini_json", internal_args := [],
    default_role_prompt := some "prompts/default.md", runner := none }

/-- A discovery round that finds one valid manifest. -/
def demoFiles : List (String × ConfigFile) := [("/conf/acme.json", .config demoRaw)]

/-- A discovery round that hits a malformed JSON file. -/
def demoBadFiles : List (String × ConfigFile) :=
  [("/conf/broken.json", .badJson "Expecting value: line 1 column 1 (char 0)")]

/-- An internal-defaults table whose `gemini` entry supplies an
executable (and everything else). -/
def c4Defaults : String → Option CLIInternalDefaults := fun n =>
  if n == "gemini" then
    some { executable := some "gemini", additional_args := ["-o", "json"], env := [],
           timeout_seconds := 60, parser := "gemini_json", runner := some "gemini",
           default_role_prompt := some "prompts/gemini.md" }
  else none

/-- A manifest for the built-in `gemini` CLI that omits `command`. -/
def c4Raw : CLIClientConfig :=
  { name := "gemini", command := none, working_dir := none, additional_args := [],
    env := [], timeout_seconds := none, roles := [], output_to_file := none,
    parser := none, internal_args := [], default_role_prompt := none, runner := none }

/-- A custom-CLI manifest omitting both `command` and `parser`. -/
def c8Raw : CLIClientConfig :=
  { name := "acme", command := none, working_dir := none, additional_args := [],
    env := [], timeout_seconds := none, roles := [], output_to_file := none,
    parser := none, internal_args := [], default_role_prompt := none, runner := none }

/-- An assistant event contributing one text fragment. -/
def cexAssistant : Json :=
  .obj [("type", .str "assistant"),
        ("message", .obj [("content", .arr [.obj [("type", .str "text"),
                                                  ("text", .str "partial thought")]])])]

/-- A terminal success event whose `result` field carries surrounding
whitespace. -/
def cexTerminal : Json :=
  .obj [("type", .str "result"), ("subtype", .str "success"),
        ("result", .str "  padded  "), ("session_id", .str "ses_1")]

/-- Cursor stdout: one fragment, then the terminal event. -/
def cexLines : List RawLine := [.event cexAssistant, .event cexTerminal]

/-- Cursor stdout for the session/terminal ordering demo: an event with
an empty session field, one with `ses_a`, one with `ses_b`, and two
terminal events with different `result` payloads. -/
def demoCursorLines : List RawLine :=
  [.event (.obj [("type", .str "system"), ("session_id", .str "")]),
   .junk "noise",
   .event (.obj [("type", .str "assistant"), ("session_id", .str "ses_a"),
                 ("message", .obj [("content", .arr [.obj [("type", .str "text"),
                                                           ("text", .str "hi")]])])]),
   .event (.obj [("type", .str "user"), ("session_id", .str "ses_b")]),
   .event (.obj [("type", .str "result"), ("subtype", .str "success"),
                 ("result", .str "first")]),
   .event (.obj [("type", .str "result"), ("subtype", .str "success"),
                 ("result", .str "final answer")])]

/-- The response the cursor parser produces on `demoCursorLines`. -/
def demoCursorResp : ParsedCLIResponse :=
  match CursorNDJSONParser.parse demoCursorLines "" with
  | .ok r => r
  | .error _ => ⟨"", []⟩

/-- OpenCode stdout: two session ids, one text event, two
`step_finish` events. -/
def demoOpenLines : List RawLine :=
  [.event (.obj [("type", .str "step_start"), ("sessionID", .str "ses_x")]),
   .event (.obj [("type", .str "text"), ("sessionID", .str "ses_y"),
                 ("part", .obj [("text", .str "hello there")])]),
   .junk "broken json line",
   .event (.obj [("type", .str "step_finish"), ("sessionID", .str "ses_y"),
                 ("part", .obj [("reason", .str "early")])]),
   .event (.obj [("type", .str "step_finish"), ("sessionID", .str "ses_y"),
                 ("part", .obj [("reason", .str "stop")])])]

/-- The response the opencode parser produces on `demoOpenLines`. -/
def demoOpenResp : ParsedCLIResponse :=
  match OpenCodeJSONParser.parse demoOpenLines "" with
  | .ok r => r
  | .error _ => ⟨"", []⟩

/-! ## Theorems -/

theorem dictGet_insert_self {α : Type} (k : String) (v : α) (d : List (String × α)) :
    dictGet k (dictInsert k v d) = some v := by
  induction d with
  | nil => simp [dictGet, dictInsert]
  | cons kv rest ih =>
    by_cases h : kv.1 = k
    · simp [dictInsert, dictGet, h]
    · simp [dictInsert, dictGet, h, ih]

theorem dictGet_append {α : Type} (k : String) (l1 l2 : List (String × α)) :
    dictGet k (l1 ++ l2) =
      (match dictGet k l1 with
       | some v => some v
       | none => dictGet k l2) := by
  induction l1 with
  | nil => simp [dictGet]
  | cons kv rest ih =>
    by_cases h : kv.1 = k
    · simp [dictGet, h]
    · simp [dictGet, h, ih]

/-- C6: importing the same path twice reuses the cached module - after a
successful import the second call returns the same module object and
leaves the cache untouched no matter what executing the file would now
do (no second import runs) - and a failed import leaves the cache
exactly as it was, so a retry starts clean. -/
theorem module_cache_reuse_and_rollback (world world2 : World)
    (cache : List (String × PyModule)) (path : String) :
    (∀ cache' m, _import_module_from_path world cache path = (cache', .ok m) →
        _import_module_from_path world2 cache' path = (cache', .ok m))
    ∧ (∀ cache' e, _import_module_from_path world cache path = (cache', .error e) →
        cache' = cache) := by
  constructor
  · intro cache' m h
    cases hc : dictGet (moduleNameOf path) cache with
    | some m0 =>
      simp only [_import_module_from_path, hc, Prod.mk.injEq, Except.ok.injEq] at h
      obtain ⟨rfl, rfl⟩ := h
      simp [_import_module_from_path, hc]
    | none =>
      cases he : world.exec path with
      | ok m1 =>
        simp only [_import_module_from_path, hc, he, Prod.mk.injEq, Except.ok.injEq] at h
        obtain ⟨rfl, rfl⟩ := h
        simp [_import_module_from_path, dictGet_insert_self]
      | error e1 =>
        simp [_import_module_from_path, hc, he] at h
  · intro cache' e h
    cases hc : dictGet (moduleNameOf path) cache with
    | some m0 =>
      simp [_import_module_from_path, hc] at h
    | none =>
      cases he : world.exec path with
      | ok m1 =>
        simp [_import_module_from_path, hc, he] at h
      | error e1 =>
        simp only [_import_module_from_path, hc, he, Prod.mk.injEq, Except.error.injEq] at h
        exact h.1.symm

theorem module_cache_reuse_witness :
    _import_module_from_path demoWorld (dictInsert (moduleNameOf "/plug.py") ⟨[]⟩ []) "/plug.py"
      = (dictInsert (moduleNameOf "/plug.py") ⟨[]⟩ [], .ok ⟨[]⟩)
    ∧ _import_module_from_path demoWorld [] "/nope.py" = ([], .error "Error executing module /nope.py: boom") :=
  ⟨(module_cache_reuse_and_rollback okWorld demoWorld [] "/plug.py").1
      (dictInsert (moduleNameOf "/plug.py") ⟨[]⟩ []) ⟨[]⟩ rfl,
    rfl⟩

/-- C9: a `builtin:<NAME>` spec with the name in any casing and with
surrounding whitespace loads exactly the class registered under the
canonical lowercase key, and so does the canonical spec itself. -/
theorem builtin_spec_case_insensitive (world : World) (cache : List (String × PyModule))
    (registry : List (String × PyType)) (base : String) (cbd : Option String)
    (spec name key : String) (c : PyType)
    (h0 : pyEmpty spec = false)
    (h1 : pyStarts (pyStrip spec) "builtin:" = true)
    (h2 : pyDrop (pyStrip spec) 8 = name)
    (h3 : pyLower (pyStrip name) = key)
    (h4 : pyEmpty key = false)
    (h5 : dictGet key registry = some c)
    (k0 : pyEmpty ("builtin:" ++ key) = false)
    (k1 : pyStrip ("builtin:" ++ key) = "builtin:" ++ key)
    (k2 : pyStarts ("builtin:" ++ key) "builtin:" = true)
    (k3 : pyDrop ("builtin:" ++ key) 8 = key)
    (k4 : pyStrip key = key)
    (k5 : pyLower key = key) :
    load_class_from_spec world cache spec base registry cbd = (cache, .ok c)
    ∧ load_class_from_spec world cache ("builtin:" ++ key) base registry cbd = (cache, .ok c) := by
  constructor
  · simp only [load_class_from_spec, h0, Bool.false_eq_true, if_false, h1, if_true, h2]
    simp [_load_builtin, h3, h4, h5]
  · simp only [load_class_from_spec, k0, Bool.false_eq_true, if_false, k1, k2, if_true, k3]
    simp [_load_builtin, k4, k5, h4, h5]

theorem builtin_spec_case_witness :
    load_class_from_spec demoWorld [] "  builtin: GEMini  " "BaseCLIAgent" _AGENTS none
      = ([], .ok GeminiAgent)
    ∧ load_class_from_spec demoWorld [] ("builtin:" ++ "gemini") "BaseCLIAgent" _AGENTS none
      = ([], .ok GeminiAgent) :=
  builtin_spec_case_insensitive demoWorld [] _AGENTS "BaseCLIAgent" none
    "  builtin: GEMini  " " GEMini" "gemini" GeminiAgent
    (by decide) (by decide) (by decide) (by decide) (by decide) rfl
    (by decide) (by decide) (by decide) (by decide) (by decide) (by decide)

/-- C5 (amended): the legacy entry points do a case-insensitive builtin
lookup; an unmatched name yields the generic `BaseCLIAgent` for agent
construction, but the legacy parser lookup raises a `ParserError` for
an unmatched name instead of returning a generic parser. -/
theorem legacy_lookup_behavior :
    (∀ client : ResolvedCLIClient,
      dictGet (pyLower (pyOrStr client.runner client.name)) _AGENTS = none →
      create_agent client = BaseCLIAgent)
    ∧ (∀ (client : ResolvedCLIClient) (c : PyType),
      dictGet (pyLower (pyOrStr client.runner client.name)) _AGENTS = some c →
      create_agent client = c)
    ∧ (∀ name : String, dictGet (pyLower name) _PARSER_CLASSES = none →
      get_parser_builtin name = .error ("No parser registered for '" ++ name ++ "'"))
    ∧ (∀ (name : String) (c : PyType), dictGet (pyLower name) _PARSER_CLASSES = some c →
      get_parser_builtin name = .ok c) := by
  refine ⟨?_, ?_, ?_, ?_⟩ <;> intros <;> simp [create_agent, get_parser_builtin, *]

/-- C5 counterexample: a legacy parser name matching no registry entry
raises a `ParserError` rather than yielding a generic implementation. -/
theorem get_parser_unknown_raises :
    get_parser_builtin "acme" = .error "No parser registered for 'acme'" := rfl

theorem legacy_lookup_witness :
    create_agent demoClient = BaseCLIAgent
    ∧ get_parser_builtin "Gemini_JSON" = .ok GeminiJSONParserType :=
  ⟨legacy_lookup_behavior.1 demoClient rfl,
    legacy_lookup_behavior.2.2.2 "Gemini_JSON" GeminiJSONParserType rfl⟩

/-- C2 (amended): when loading the spec fails, the agent factory falls
back to `BaseCLIAgent` without raising, while the parser factory
re-raises the failure as a `ParserError` with the same message. -/
theorem factory_spec_failure_behavior (world : World) (cache : List (String × PyModule))
    (client : ResolvedCLIClient) (s : String) (cbd : Option String)
    (cache' : List (String × PyModule)) (e : String) :
    (load_class_from_spec world cache (normalize_spec s _AGENTS) "BaseCLIAgent" _AGENTS
        (match cbd with
         | some b => some b
         | none => client.config_base_dir) = (cache', .error e) →
      create_agent_from_spec world cache client (some s) cbd = (cache', BaseCLIAgent))
    ∧ (pyEmpty s = false →
      load_class_from_spec world cache (normalize_spec s _PARSER_CLASSES) "BaseParser"
        _PARSER_CLASSES cbd = (cache', .error e) →
      get_parser_from_spec world cache s cbd = (cache', .error e)) := by
  constructor
  · intro h
    simp only [create_agent_from_spec]
    rw [h]
  · intro hs h
    simp only [get_parser_from_spec, hs, Bool.false_eq_true, if_false]
    rw [h]

/-- C2 counterexample: a failing parser spec makes the parser factory
raise (return an error) instead of yielding a generic implementation. -/
theorem get_parser_from_spec_raises :
    get_parser_from_spec demoWorld [] "builtin:nope" none
      = ([], .error "Unknown builtin 'nope'. Available: claude_json, codex_jsonl, gemini_json") := rfl

theorem factory_fallback_witness :
    create_agent_from_spec demoWorld [] demoClient (some "builtin:nope") none = ([], BaseCLIAgent)
    ∧ get_parser_from_spec demoWorld [] "builtin:nope" none
      = ([], .error "Unknown builtin 'nope'. Available: claude_json, codex_jsonl, gemini_json") :=
  ⟨(factory_spec_failure_behavior demoWorld [] demoClient "builtin:nope" none []
      "Unknown builtin 'nope'. Available: claude, codex, gemini").1 rfl,
    (factory_spec_failure_behavior demoWorld [] demoClient "builtin:nope" none []
      "Unknown builtin 'nope'. Available: claude_json, codex_jsonl, gemini_json").2 rfl rfl⟩

theorem resolve_executable_missing (raw : CLIClientConfig)
    (idft : Option CLIInternalDefaults) (h : truthyOptStr raw.command = false) :
    ClinkRegistry._resolve_executable raw idft
      = .error ("CLI '" ++ raw.name ++ "' must specify a 'command' in configuration") := by
  cases hc : raw.command with
  | none => simp [ClinkRegistry._resolve_executable, hc]
  | some s =>
    have hs : pyEmpty s = true := by simpa [truthyOptStr, hc] using h
    simp [ClinkRegistry._resolve_executable, hc, hs]

/-- C4 (amended): the `command` field is always required - its absence
(or emptiness) is a fatal `RegistryLoadError` even when the CLI name
has internal defaults supplying an executable; for a built-in CLI the
error is the "must specify a command" message, for a custom CLI the
validation error naming the missing fields. -/
theorem command_always_required (fx : String → Bool)
    (defaults : String → Option CLIInternalDefaults) (raw : CLIClientConfig) (path : String)
    (hname : pyEmpty raw.name = false)
    (hcmd : truthyOptStr raw.command = false) :
    (∀ d, defaults (pyLower (pyStrip raw.name)) = some d →
      ClinkRegistry._resolve_config fx defaults raw path
        = .error ("CLI '" ++ raw.name ++ "' must specify a 'command' in configuration"))
    ∧ (defaults (pyLower (pyStrip raw.name)) = none →
      ClinkRegistry._resolve_config fx defaults raw path
        = .error ("Custom CLI '" ++ raw.name ++ "' at " ++ path
            ++ " is missing required fields: "
            ++ pyJoin "; " (["'command' field is required for custom CLIs"]
                ++ (if !truthyOptStr raw.parser
                    then ["'parser' field is required for custom CLIs"]
                    else [])))) := by
  constructor
  · intro d hd
    simp [ClinkRegistry._resolve_config, hname, hd,
      resolve_executable_missing raw (some d) hcmd]
  · intro hd
    have hv : ClinkRegistry._validate_custom_cli_config raw path
        = some ("Custom CLI '" ++ raw.name ++ "' at " ++ path
            ++ " is missing required fields: "
            ++ pyJoin "; " (["'command' field is required for custom CLIs"]
                ++ (if !truthyOptStr raw.parser
                    then ["'parser' field is required for custom CLIs"]
                    else []))) := by
      simp [ClinkRegistry._validate_custom_cli_config, hcmd]
    simp [ClinkRegistry._resolve_config, hname, hd, hv]

/-- C4 counterexample: a manifest for the built-in `gemini` CLI (whose
internal defaults supply an executable) that omits `command` still
fails resolution with the "must specify a command" error, so resolution
does not succeed on the internal default's executable. -/
theorem builtin_cli_missing_command_fatal :
    c4Defaults "gemini" = some
      { executable := some "gemini", additional_args := ["-o", "json"], env := [],
        timeout_seconds := 60, parser := "gemini_json", runner := some "gemini",
        default_role_prompt := some "prompts/gemini.md" }
    ∧ c4Raw.command = none
    ∧ ClinkRegistry._resolve_config demoFx c4Defaults c4Raw "/conf/gemini.json"
      = .error "CLI 'gemini' must specify a 'command' in configuration" :=
  ⟨rfl, rfl, rfl⟩

theorem command_always_required_witness :
    ClinkRegistry._resolve_config demoFx c4Defaults c4Raw "/conf/gemini.json"
      = .error "CLI 'gemini' must specify a 'command' in configuration" :=
  (command_always_required demoFx c4Defaults c4Raw "/conf/gemini.json" rfl rfl).1
    { executable := some "gemini", additional_args := ["-o", "json"], env := [],
      timeout_seconds := 60, parser := "gemini_json", runner := some "gemini",
      default_role_prompt := some "prompts/gemini.md" } rfl

/-- C8: a custom CLI manifest (no internal defaults) omitting both
`command` and `parser` fails resolution with a single fatal error whose
message names both missing fields. -/
theorem custom_cli_missing_fields_error (fx : String → Bool)
    (defaults : String → Option CLIInternalDefaults) (raw : CLIClientConfig) (path : String)
    (hname : pyEmpty raw.name = false)
    (hcustom : defaults (pyLower (pyStrip raw.name)) = none)
    (hcmd : truthyOptStr raw.command = false)
    (hpar : truthyOptStr raw.parser = false) :
    ClinkRegistry._resolve_config fx defaults raw path
      = .error ("Custom CLI '" ++ raw.name ++ "' at " ++ path
          ++ " is missing required fields: "
          ++ pyJoin "; " ["'command' field is required for custom CLIs",
                          "'parser' field is required for custom CLIs"])
    ∧ pyJoin "; " ["'command' field is required for custom CLIs",
                   "'parser' field is required for custom CLIs"]
      = "'command' field is required for custom CLIs; 'parser' field is required for custom CLIs" := by
  constructor
  · have hv : ClinkRegistry._validate_custom_cli_config raw path
        = some ("Custom CLI '" ++ raw.name ++ "' at " ++ path
            ++ " is missing required fields: "
            ++ pyJoin "; " ["'command' field is required for custom CLIs",
                            "'parser' field is required for custom CLIs"]) := by
      simp [ClinkRegistry._validate_custom_cli_config, hcmd, hpar]
    simp [ClinkRegistry._resolve_config, hname, hcustom, hv]
  · decide

theorem custom_cli_missing_fields_witness :
    ClinkRegistry._resolve_config demoFx demoDefaults c8Raw "/conf/acme.json"
      = .error ("Custom CLI 'acme' at /conf/acme.json is missing required fields: "
          ++ "'command' field is required for custom CLIs; "
          ++ "'parser' field is required for custom CLIs") := by
  have h := custom_cli_missing_fields_error demoFx demoDefaults c8Raw "/conf/acme.json"
    rfl rfl rfl rfl
  rw [h.1]
  rfl

/-- C1: `reload()` is not atomic - `_load` clears the client map before
rebuilding, so a reload that fails (here: malformed JSON in a manifest)
leaves the registry empty and the previously loaded clients are gone:
`list_clients` no longer returns them and `get_client` now raises. -/
theorem reload_failure_destroys_previous_clients :
    (ClinkRegistry._load demoFx demoDefaults demoFiles ⟨[]⟩).2 = none
    ∧ ClinkRegistry.list_clients (ClinkRegistry._load demoFx demoDefaults demoFiles ⟨[]⟩).1
      = ["acme"]
    ∧ (ClinkRegistry.get_client (ClinkRegistry._load demoFx demoDefaults demoFiles ⟨[]⟩).1
        "acme").isOk = true
    ∧ (ClinkRegistry.reload demoFx demoDefaults demoBadFiles
        (ClinkRegistry._load demoFx demoDefaults demoFiles ⟨[]⟩).1).2
      = some "Invalid JSON in /conf/broken.json: Expecting value: line 1 column 1 (char 0)"
    ∧ ClinkRegistry.list_clients
        (ClinkRegistry.reload demoFx demoDefaults demoBadFiles
          (ClinkRegistry._load demoFx demoDefaults demoFiles ⟨[]⟩).1).1 = []
    ∧ ClinkRegistry.get_client
        (ClinkRegistry.reload demoFx demoDefaults demoBadFiles
          (ClinkRegistry._load demoFx demoDefaults demoFiles ⟨[]⟩).1).1 "acme"
      = .error "CLI 'acme' is not configured. Available clients: " :=
  ⟨rfl, rfl, rfl, rfl, rfl, rfl⟩

theorem pyEmpty_append (a b : String) (h : pyEmpty a = false) : pyEmpty (a ++ b) = false := by
  obtain ⟨la⟩ := a
  obtain ⟨lb⟩ := b
  cases la with
  | nil => simp [pyEmpty] at h
  | cons c cs => rfl

theorem cursorScan_eq_fold (lines : List RawLine) :
    cursorScan lines = (eventsOf lines).foldl cursorStep cursorInit := by
  suffices h : ∀ (st : CursorState) (ls : List RawLine),
      ls.foldl
        (fun st l =>
          match l with
          | .junk _ => st
          | .event e => cursorStep st e) st
        = (eventsOf ls).foldl cursorStep st from h cursorInit lines
  intro st ls
  induction ls generalizing st with
  | nil => rfl
  | cons l rest ih =>
    cases l with
    | junk s => simp [eventsOf, List.filterMap_cons, ih]
    | event e => simp [eventsOf, List.filterMap_cons, ih]

theorem openCodeScan_eq_fold (lines : List RawLine) :
    openCodeScan lines = (eventsOf lines).foldl openCodeStep openCodeInit := by
  suffices h : ∀ (st : OpenCodeState) (ls : List RawLine),
      ls.foldl
        (fun st l =>
          match l with
          | .junk _ => st
          | .event e => openCodeStep st e) st
        = (eventsOf ls).foldl openCodeStep st from h openCodeInit lines
  intro st ls
  induction ls generalizing st with
  | nil => rfl
  | cons l rest ih =>
    cases l with
    | junk s => simp [eventsOf, List.filterMap_cons, ih]
    | event e => simp [eventsOf, List.filterMap_cons, ih]

theorem cursorFold_spec (evs : List Json) (st : CursorState) :
    evs.foldl cursorStep st =
      ⟨st.events ++ evs,
       st.msgs ++ evs.flatMap cursorFragments,
       st.tool_calls ++ evs.filter isToolCallEvent,
       evs.foldl (lastUpd isCursorTerminal) st.terminal,
       evs.foldl (sessUpd "session_id") st.session⟩ := by
  induction evs generalizing st with
  | nil => simp
  | cons e rest ih =>
    rw [List.foldl_cons, ih]
    cases hT : isToolCallEvent e <;>
      simp [cursorStep, lastUpd, sessUpd, hT, List.filter_cons, List.flatMap_cons,
        List.append_assoc]

theorem openCodeFold_spec (evs : List Json) (st : OpenCodeState) :
    evs.foldl openCodeStep st =
      ⟨st.events ++ evs,
       st.text_parts ++ evs.flatMap openTextOf,
       st.tool_events ++ evs.filter isOpenToolEvent,
       evs.foldl (lastUpd isStepFinishEvent) st.step_finish,
       evs.foldl (sessUpd "sessionID") st.session⟩ := by
  induction evs generalizing st with
  | nil => simp
  | cons e rest ih =>
    rw [List.foldl_cons, ih]
    cases hT : isOpenToolEvent e <;>
      simp [openCodeStep, lastUpd, sessUpd, hT, List.filter_cons, List.flatMap_cons,
        List.append_assoc]

theorem foldl_lastUpd (p : Json → Bool) (evs : List Json) (a : Option Json) :
    evs.foldl (lastUpd p) a =
      (match lastEventWhere p evs with
       | some t => some t
       | none => a) := by
  induction evs generalizing a with
  | nil => rfl
  | cons e rest ih =>
    rw [List.foldl_cons, ih]
    cases h : lastEventWhere p rest <;> cases hp : p e <;>
      simp [lastEventWhere, h, hp, lastUpd]

theorem lastEventWhere_eq_none (p : Json → Bool) (evs : List Json)
    (h : ∀ e ∈ evs, p e = false) : lastEventWhere p evs = none := by
  induction evs with
  | nil => rfl
  | cons e rest ih =>
    have he := h e (by simp)
    have hr := ih fun x hx => h x (by simp [hx])
    simp [lastEventWhere, hr, he]

theorem foldl_sess_absorb (key : String) (evs : List Json) (a : Option Json)
    (ha : optTruthy a = true) : evs.foldl (sessUpd key) a = a := by
  induction evs with
  | nil => rfl
  | cons e rest ih =>
    rw [List.foldl_cons]
    simp [sessUpd, ha, ih]

theorem foldl_sess_spec (key : String) (evs : List Json) :
    ∀ a : Option Json, optTruthy a = false → sessionsWellTyped key evs = true →
      (match firstNonEmptySession key evs with
       | some s => evs.foldl (sessUpd key) a = some (.str s)
       | none => optTruthy (evs.foldl (sessUpd key) a) = false) := by
  induction evs with
  | nil =>
    intro a ha _
    simpa [firstNonEmptySession] using ha
  | cons e rest ih =>
    intro a ha hwt
    have hwt' : sessionsWellTyped key rest = true := by
      simp only [sessionsWellTyped, List.all_cons, Bool.and_eq_true] at hwt
      exact hwt.2
    have he : (match e.get? key with
        | none => true
        | some (.str _) => true
        | some _ => false) = true := by
      simp only [sessionsWellTyped, List.all_cons, Bool.and_eq_true] at hwt
      exact hwt.1
    rw [List.foldl_cons]
    have hstep : sessUpd key a e = e.get? key := by simp [sessUpd, ha]
    rw [hstep]
    cases hg : e.get? key with
    | none =>
      have hfirst : firstNonEmptySession key (e :: rest) = firstNonEmptySession key rest := by
        simp [firstNonEmptySession, List.filterMap_cons, hg]
      rw [hfirst]
      exact ih none rfl hwt'
    | some v =>
      cases v with
      | str s =>
        cases hps : pyEmpty s with
        | true =>
          have hfirst : firstNonEmptySession key (e :: rest)
              = firstNonEmptySession key rest := by
            simp [firstNonEmptySession, List.filterMap_cons, hg, hps]
          rw [hfirst]
          exact ih (some (.str s)) (by simp [optTruthy, Json.truthy, hps]) hwt'
        | false =>
          have hfirst : firstNonEmptySession key (e :: rest) = some s := by
            simp [firstNonEmptySession, List.filterMap_cons, hg, hps]
          rw [hfirst]
          exact foldl_sess_absorb key rest (some (.str s))
            (by simp [optTruthy, Json.truthy, hps])
      | null => rw [hg] at he; simp at he
      | bool b => rw [hg] at he; simp at he
      | num n => rw [hg] at he; simp at he
      | arr xs => rw [hg] at he; simp at he
      | obj fs => rw [hg] at he; simp at he

theorem firstNonEmptySession_ne (key : String) (evs : List Json) (s : String)
    (h : firstNonEmptySession key evs = some s) : pyEmpty s = false := by
  induction evs with
  | nil => simp [firstNonEmptySession] at h
  | cons e rest ih =>
    simp only [firstNonEmptySession, List.filterMap_cons] at h ih
    cases hg : e.get? key with
    | none =>
      rw [hg] at h
      exact ih h
    | some v =>
      cases v with
      | str t =>
        cases hps : pyEmpty t with
        | true =>
          rw [hg] at h
          simp only [hps, if_true] at h
          exact ih h
        | false =>
          rw [hg] at h
          simp only [hps, Bool.false_eq_true, if_false, List.head?_cons,
            Option.some.injEq] at h
          exact h ▸ hps
      | null => rw [hg] at h; exact ih h
      | bool b => rw [hg] at h; exact ih h
      | num n => rw [hg] at h; exact ih h
      | arr xs => rw [hg] at h; exact ih h
      | obj fs => rw [hg] at h; exact ih h

theorem dictGet_session_cursorTerminalMeta (t : Json) :
    dictGet "session_id" (cursorTerminalMeta t) = none := by
  cases h1 : (t.getNN? "duration_ms").isSome <;>
  cases h2 : (t.getNN? "duration_api_ms").isSome <;>
  cases h3 : optTruthy (t.getNN? "request_id") <;>
    simp [cursorTerminalMeta, optEntry, dictGet_append, dictGet, h1, h2, h3]

theorem dictGet_session_cursorMetadata (st : CursorState) (stderr : String) :
    dictGet "session_id" (cursorMetadata st stderr)
      = (if optTruthy st.session then some (st.session.getD .null) else none) := by
  cases ht : st.terminal <;>
  cases hs : optTruthy st.session <;>
  cases he : st.tool_calls.isEmpty <;>
  cases hse : pyEmpty (pyStrip stderr) <;>
    simp [cursorMetadata, dictGet_append, optEntry, dictGet, ht, hs, he, hse,
      dictGet_session_cursorTerminalMeta]

theorem dictGet_session_openFinishMeta (f : Json) :
    dictGet "session_id" (openFinishMeta f) = none := by
  cases h1 : ((f.getD "part" (Json.obj [])).getD "tokens" (Json.obj [])).truthy <;>
  cases h2 : (((f.getD "part" (Json.obj [])).getD "tokens" (Json.obj [])).getD "cache"
      (Json.obj [])).truthy <;>
  cases h3 : ((f.getD "part" (Json.obj [])).getNN? "cost").isSome <;>
  cases h4 : optTruthy ((f.getD "part" (Json.obj [])).getNN? "reason") <;>
    simp [openFinishMeta, optEntry, dictGet_append, dictGet, h1, h2, h3, h4]

theorem dictGet_session_openCodeMetadata (st : OpenCodeState) (stderr : String) :
    dictGet "session_id" (openCodeMetadata st stderr)
      = (if optTruthy st.session then some (st.session.getD .null) else none) := by
  cases ht : st.step_finish <;>
  cases hs : optTruthy st.session <;>
  cases he : st.tool_events.isEmpty <;>
  cases hse : pyEmpty (pyStrip stderr) <;>
    simp [openCodeMetadata, dictGet_append, optEntry, dictGet, ht, hs, he, hse,
      dictGet_session_openFinishMeta]

theorem cursorParse_ok_metadata (lines : List RawLine) (stderr : String)
    (r : ParsedCLIResponse) (h : CursorNDJSONParser.parse lines stderr = .ok r) :
    r.metadata = cursorMetadata (cursorScan lines) stderr := by
  simp only [CursorNDJSONParser.parse] at h
  repeat' split at h
  all_goals try simp at h
  all_goals try subst h
  all_goals rfl

theorem joinIf (l : List String) :
    (if !l.isEmpty then pyJoin "\n\n" l else "") = pyJoin "\n\n" l := by
  cases l <;> simp [pyJoin]

theorem openCodeParse_ok_shape (lines : List RawLine) (stderr : String)
    (r : ParsedCLIResponse) (h : OpenCodeJSONParser.parse lines stderr = .ok r) :
    r.content = pyJoin "\n\n" ((eventsOf lines).flatMap openTextOf)
    ∧ r.metadata = openCodeMetadata (openCodeScan lines) stderr := by
  have hscan := openCodeScan_eq_fold lines
  rw [openCodeFold_spec] at hscan
  have hparts : (openCodeScan lines).text_parts = (eventsOf lines).flatMap openTextOf := by
    rw [hscan]
    simp [openCodeInit]
  simp only [OpenCodeJSONParser.parse, joinIf] at h
  repeat' split at h
  all_goals try simp at h
  all_goals try subst h
  all_goals refine ⟨?_, rfl⟩
  all_goals simp only [hparts]

theorem isStrVal_ne (o : Option Json) (a b : String) (hab : a ≠ b)
    (h : isStrVal o a = true) : isStrVal o b = false := by
  cases o with
  | none => simp [isStrVal] at h
  | some v => cases v <;> simp_all [isStrVal]

theorem flatMap_filter_eq (p : Json → Bool) (f : Json → List String)
    (hf : ∀ e, p e = false → f e = []) (evs : List Json) :
    (evs.filter p).flatMap f = evs.flatMap f := by
  induction evs with
  | nil => rfl
  | cons e rest ih =>
    cases hp : p e
    · simp [List.filter_cons, hp, List.flatMap_cons, hf e hp, ih]
    · simp [List.filter_cons, hp, List.flatMap_cons, ih]

theorem eventsOf_dropStepFinish (lines : List RawLine) :
    eventsOf (dropStepFinish lines)
      = (eventsOf lines).filter fun e => !isStepFinishEvent e := by
  induction lines with
  | nil => rfl
  | cons l rest ih =>
    cases l with
    | junk s => simpa [dropStepFinish, eventsOf, List.filter_cons] using ih
    | event e =>
      cases hp : isStepFinishEvent e <;>
        simpa [dropStepFinish, eventsOf, List.filter_cons, List.filterMap_cons, hp] using ih

theorem eventsOf_keepEvents (lines : List RawLine) :
    eventsOf (lines.filter keepEventLine) = eventsOf lines := by
  induction lines with
  | nil => rfl
  | cons l rest ih =>
    cases l <;>
      simpa [eventsOf, keepEventLine, List.filter_cons, List.filterMap_cons] using ih

theorem cursorScan_filter (lines : List RawLine) :
    cursorScan (lines.filter keepEventLine) = cursorScan lines := by
  rw [cursorScan_eq_fold, cursorScan_eq_fold, eventsOf_keepEvents]

theorem openCodeScan_filter (lines : List RawLine) :
    openCodeScan (lines.filter keepEventLine) = openCodeScan lines := by
  rw [openCodeScan_eq_fold, openCodeScan_eq_fold, eventsOf_keepEvents]

theorem cursorFragments_mem_ne (e : Json) (s : String) (hs : s ∈ cursorFragments e) :
    pyEmpty s = false := by
  unfold cursorFragments at hs
  cases hA : isAssistantEvent e
  · simp [hA] at hs
  · simp only [hA, if_true] at hs
    unfold assistantTexts at hs
    rw [List.mem_filterMap] at hs
    obtain ⟨b, _, hfb⟩ := hs
    by_cases h1 : isStrVal (b.get? "type") "text" = true
    · simp only [h1, if_true] at hfb
      by_cases h2 : pyEmpty (pyStrip (b.getStrD "text" "")) = true
      · simp [h2] at hfb
      · simp only [Bool.not_eq_true] at h2
        simp only [h2, Bool.false_eq_true, if_false, Option.some.injEq] at hfb
        exact hfb ▸ h2
    · simp [h1] at hfb

theorem pyEmpty_join_fragments (msgs : List String) (hne : msgs ≠ [])
    (hall : ∀ s ∈ msgs, pyEmpty s = false) : pyEmpty (pyJoin "\n\n" msgs) = false := by
  cases msgs with
  | nil => exact absurd rfl hne
  | cons s rest =>
    have hs := hall s (by simp)
    cases rest with
    | nil => exact hs
    | cons s2 r2 =>
      show pyEmpty (s ++ "\n\n" ++ pyJoin "\n\n" (s2 :: r2)) = false
      exact pyEmpty_append _ _ (pyEmpty_append _ _ hs)

theorem openParse_content_only (l1 l2 : List RawLine) (stderr : String)
    (hp : (openCodeScan l1).text_parts = (openCodeScan l2).text_parts) :
    (OpenCodeJSONParser.parse l1 stderr).map ParsedCLIResponse.content
      = (OpenCodeJSONParser.parse l2 stderr).map ParsedCLIResponse.content := by
  simp only [OpenCodeJSONParser.parse, hp]
  have h0 : pyEmpty "" = true := rfl
  split
  · repeat' split
    all_goals rfl
  · simp only [h0, if_true]

/-- C3 (amended): in a sequence ending in a terminal success event whose
`result` field is non-blank, the cursor parser returns that field's
text *stripped of surrounding whitespace* (verbatim only when the field
carries none), regardless of earlier fragments; without any terminal
event it returns the accumulated (individually stripped, non-blank)
fragments joined by a blank line in order.  The opencode dialect's
terminal event carries no aggregated text field: its parsed content is
always the joined fragments, and removing the `step_finish` events
never changes the content. -/
theorem ndjson_roundtrip_amended :
    (∀ (lines : List RawLine) (stderr : String) (evs' : List Json) (t : Json),
      eventsOf lines = evs' ++ [t] →
      isCursorTerminal t = true →
      pyEmpty (cursorTerminalText t) = false →
      CursorNDJSONParser.parse lines stderr
        = .ok ⟨cursorTerminalText t, cursorMetadata (cursorScan lines) stderr⟩)
    ∧ (∀ (lines : List RawLine) (stderr : String),
      (∀ e ∈ eventsOf lines, isCursorTerminal e = false) →
      (eventsOf lines).flatMap cursorFragments ≠ [] →
      CursorNDJSONParser.parse lines stderr
        = .ok ⟨pyJoin "\n\n" ((eventsOf lines).flatMap cursorFragments),
               cursorMetadata (cursorScan lines) stderr⟩)
    ∧ (∀ (lines : List RawLine) (stderr : String) (r : ParsedCLIResponse),
      OpenCodeJSONParser.parse lines stderr = .ok r →
      r.content = pyJoin "\n\n" ((eventsOf lines).flatMap openTextOf))
    ∧ (∀ (lines : List RawLine) (stderr : String),
      (OpenCodeJSONParser.parse lines stderr).map ParsedCLIResponse.content
        = (OpenCodeJSONParser.parse (dropStepFinish lines) stderr).map
            ParsedCLIResponse.content) := by
  refine ⟨?_, ?_, ?_, ?_⟩
  · intro lines stderr evs' t hev ht hres
    have hscan := cursorScan_eq_fold lines
    rw [hev, cursorFold_spec] at hscan
    have hterm : (evs' ++ [t]).foldl (lastUpd isCursorTerminal) cursorInit.terminal
        = some t := by
      rw [List.foldl_append]
      simp [lastUpd, ht]
    rw [hterm] at hscan
    simp only [CursorNDJSONParser.parse, hscan]
    simp [hres]
  · intro lines stderr hnone hfrag
    have hscan := cursorScan_eq_fold lines
    rw [cursorFold_spec] at hscan
    have hterm : (eventsOf lines).foldl (lastUpd isCursorTerminal) cursorInit.terminal
        = none := by
      rw [foldl_lastUpd, lastEventWhere_eq_none _ _ hnone]
      rfl
    rw [hterm] at hscan
    have hall : ∀ s ∈ (eventsOf lines).flatMap cursorFragments, pyEmpty s = false := by
      intro s hs
      rw [List.mem_flatMap] at hs
      obtain ⟨e, _, hse⟩ := hs
      exact cursorFragments_mem_ne e s hse
    have hjoin := pyEmpty_join_fragments _ hfrag hall
    have hne : ((eventsOf lines).flatMap cursorFragments).isEmpty = false := by
      cases hx : (eventsOf lines).flatMap cursorFragments with
      | nil => exact absurd hx hfrag
      | cons a l => rfl
    have h0 : pyEmpty "" = true := rfl
    simp only [CursorNDJSONParser.parse, hscan]
    simp [cursorInit, hne, hjoin, h0]
  · intro lines stderr r h
    exact (openCodeParse_ok_shape lines stderr r h).1
  · intro lines stderr
    have h1 := openCodeScan_eq_fold lines
    have h2 := openCodeScan_eq_fold (dropStepFinish lines)
    rw [openCodeFold_spec] at h1 h2
    rw [eventsOf_dropStepFinish] at h2
    have hflat : ((eventsOf lines).filter fun e => !isStepFinishEvent e).flatMap openTextOf
        = (eventsOf lines).flatMap openTextOf := by
      apply flatMap_filter_eq
      intro e hpe
      have hsf : isStepFinishEvent e = true := by simpa using hpe
      have htx : isOpenTextEvent e = false :=
        isStrVal_ne (e.get? "type") "step_finish" "text" (by decide) hsf
      simp [openTextOf, htx]
    apply (openParse_content_only lines (dropStepFinish lines) stderr _).symm.symm
    rw [h1, h2, hflat]

/-- C3 counterexample: the terminal event's `result` field is
`"  padded  "` but the parsed content is the stripped `"padded"` - the
content is not the field's text verbatim. -/
theorem cursor_terminal_text_stripped :
    cexTerminal.getStrD "result" "" = "  padded  "
    ∧ CursorNDJSONParser.parse cexLines ""
      = .ok ⟨"padded", cursorMetadata (cursorScan cexLines) ""⟩
    ∧ ("padded" : String) ≠ "  padded  " :=
  ⟨rfl, rfl, by decide⟩

theorem ndjson_roundtrip_witness :
    CursorNDJSONParser.parse cexLines ""
      = .ok ⟨cursorTerminalText cexTerminal, cursorMetadata (cursorScan cexLines) ""⟩
    ∧ CursorNDJSONParser.parse [RawLine.event cexAssistant] ""
      = .ok ⟨pyJoin "\n\n" ((eventsOf [RawLine.event cexAssistant]).flatMap cursorFragments),
             cursorMetadata (cursorScan [RawLine.event cexAssistant]) ""⟩
    ∧ demoOpenResp.content = pyJoin "\n\n" ((eventsOf demoOpenLines).flatMap openTextOf)
    ∧ (OpenCodeJSONParser.parse demoOpenLines "").map ParsedCLIResponse.content
      = (OpenCodeJSONParser.parse (dropStepFinish demoOpenLines) "").map
          ParsedCLIResponse.content := by
  refine ⟨?_, ?_, ?_, ?_⟩
  · exact ndjson_roundtrip_amended.1 cexLines "" [cexAssistant] cexTerminal rfl rfl rfl
  · exact ndjson_roundtrip_amended.2.1 [RawLine.event cexAssistant] "" (by decide) (by decide)
  · exact ndjson_roundtrip_amended.2.2.1 demoOpenLines "" demoOpenResp rfl
  · exact ndjson_roundtrip_amended.2.2.2 demoOpenLines ""

/-- C7: when no content can be derived, both parsers raise a
`ParserError` whose message carries the stripped stderr verbatim when
it is non-empty and a dialect-specific generic "no result" message when
it is empty; and junk lines (blank, non-JSON, malformed) are skipped:
parsing a line sequence is identical to parsing only its decodable
event lines. -/
theorem parse_error_and_junk_behavior :
    (∀ (lines : List RawLine) (stderr msg : String),
      CursorNDJSONParser.parse lines stderr = .error msg →
      (pyEmpty (pyStrip stderr) = false →
        msg = "Cursor CLI returned no result. stderr: " ++ pyStrip stderr)
      ∧ (pyEmpty (pyStrip stderr) = true →
        msg = "Cursor CLI stream-json output did not contain a result"))
    ∧ (∀ (lines : List RawLine) (stderr : String),
      CursorNDJSONParser.parse lines stderr
        = CursorNDJSONParser.parse (lines.filter keepEventLine) stderr)
    ∧ (∀ (lines : List RawLine) (stderr msg : String),
      OpenCodeJSONParser.parse lines stderr = .error msg →
      (pyEmpty (pyStrip stderr) = false →
        msg = "OpenCode CLI returned no result. stderr: " ++ pyStrip stderr)
      ∧ (pyEmpty (pyStrip stderr) = true →
        msg = "OpenCode CLI JSON output did not contain any text response"))
    ∧ (∀ (lines : List RawLine) (stderr : String),
      OpenCodeJSONParser.parse lines stderr
        = OpenCodeJSONParser.parse (lines.filter keepEventLine) stderr) := by
  refine ⟨?_, ?_, ?_, ?_⟩
  · intro lines stderr msg h
    simp only [CursorNDJSONParser.parse] at h
    repeat' split at h
    all_goals try simp at h
    all_goals try subst h
    all_goals refine ⟨fun hse => ?_, fun hse => ?_⟩
    all_goals simp_all
  · intro lines stderr
    have h := cursorScan_filter lines
    simp only [CursorNDJSONParser.parse, h]
  · intro lines stderr msg h
    simp only [OpenCodeJSONParser.parse] at h
    repeat' split at h
    all_goals try simp at h
    all_goals try subst h
    all_goals refine ⟨fun hse => ?_, fun hse => ?_⟩
    all_goals simp_all
  · intro lines stderr
    have h := openCodeScan_filter lines
    simp only [OpenCodeJSONParser.parse, h]

theorem parse_error_witness :
    CursorNDJSONParser.parse [RawLine.junk "x"] " boom "
      = CursorNDJSONParser.parse ([RawLine.junk "x"].filter keepEventLine) " boom "
    ∧ "Cursor CLI returned no result. stderr: boom"
      = "Cursor CLI returned no result. stderr: " ++ pyStrip " boom "
    ∧ "OpenCode CLI JSON output did not contain any text response"
      = "OpenCode CLI JSON output did not contain any text response" :=
  ⟨parse_error_and_junk_behavior.2.1 [RawLine.junk "x"] " boom ",
    (parse_error_and_junk_behavior.1 [RawLine.junk "x"] " boom "
      "Cursor CLI returned no result. stderr: boom" rfl).1 rfl,
    (parse_error_and_junk_behavior.2.2.1 [] ""
      "OpenCode CLI JSON output did not contain any text response" rfl).2 rfl⟩

/-- C10: in both NDJSON parsers the session identifier put into the
result metadata is the one of the earliest event whose session field is
a non-empty string (first wins; events with an absent or empty session
field are passed over), while the captured terminal event
(`result`/`success` for cursor, `step_finish` for opencode) is the last
one in the sequence (last wins). -/
theorem session_first_wins_terminal_last (lines lines2 : List RawLine)
    (stderr stderr2 : String) (r r2 : ParsedCLIResponse) :
    (sessionsWellTyped "session_id" (eventsOf lines) = true →
      CursorNDJSONParser.parse lines stderr = .ok r →
      dictGet "session_id" r.metadata
        = (firstNonEmptySession "session_id" (eventsOf lines)).map Json.str)
    ∧ (cursorScan lines).terminal = lastEventWhere isCursorTerminal (eventsOf lines)
    ∧ (sessionsWellTyped "sessionID" (eventsOf lines2) = true →
      OpenCodeJSONParser.parse lines2 stderr2 = .ok r2 →
      dictGet "session_id" r2.metadata
        = (firstNonEmptySession "sessionID" (eventsOf lines2)).map Json.str)
    ∧ (openCodeScan lines2).step_finish
      = lastEventWhere isStepFinishEvent (eventsOf lines2) := by
  refine ⟨?_, ?_, ?_, ?_⟩
  · intro hwt hok
    rw [cursorParse_ok_metadata lines stderr r hok, dictGet_session_cursorMetadata]
    have hsess : (cursorScan lines).session
        = (eventsOf lines).foldl (sessUpd "session_id") none := by
      rw [cursorScan_eq_fold, cursorFold_spec]
      rfl
    rw [hsess]
    have hspec := foldl_sess_spec "session_id" (eventsOf lines) none rfl hwt
    cases hf : firstNonEmptySession "session_id" (eventsOf lines) with
    | some s =>
      rw [hf] at hspec
      have hne := firstNonEmptySession_ne "session_id" (eventsOf lines) s hf
      rw [hspec]
      simp [optTruthy, Json.truthy, hne]
    | none =>
      rw [hf] at hspec
      simp [hspec]
  · rw [cursorScan_eq_fold, cursorFold_spec]
    show (eventsOf lines).foldl (lastUpd isCursorTerminal) cursorInit.terminal = _
    rw [foldl_lastUpd]
    cases h : lastEventWhere isCursorTerminal (eventsOf lines) <;> simp [h, cursorInit]
  · intro hwt hok
    rw [(openCodeParse_ok_shape lines2 stderr2 r2 hok).2, dictGet_session_openCodeMetadata]
    have hsess : (openCodeScan lines2).session
        = (eventsOf lines2).foldl (sessUpd "sessionID") none := by
      rw [openCodeScan_eq_fold, openCodeFold_spec]
      rfl
    rw [hsess]
    have hspec := foldl_sess_spec "sessionID" (eventsOf lines2) none rfl hwt
    cases hf : firstNonEmptySession "sessionID" (eventsOf lines2) with
    | some s =>
      rw [hf] at hspec
      have hne := firstNonEmptySession_ne "sessionID" (eventsOf lines2) s hf
      rw [hspec]
      simp [optTruthy, Json.truthy, hne]
    | none =>
      rw [hf] at hspec
      simp [hspec]
  · rw [openCodeScan_eq_fold, openCodeFold_spec]
    show (eventsOf lines2).foldl (lastUpd isStepFinishEvent) openCodeInit.step_finish = _
    rw [foldl_lastUpd]
    cases h : lastEventWhere isStepFinishEvent (eventsOf lines2) <;> simp [h, openCodeInit]

theorem session_terminal_witness :
    dictGet "session_id" demoCursorResp.metadata
      = (firstNonEmptySession "session_id" (eventsOf demoCursorLines)).map Json.str
    ∧ (cursorScan demoCursorLines).terminal
      = lastEventWhere isCursorTerminal (eventsOf demoCursorLines)
    ∧ dictGet "session_id" demoOpenResp.metadata
      = (firstNonEmptySession "sessionID" (eventsOf demoOpenLines)).map Json.str
    ∧ (openCodeScan demoOpenLines).step_finish
      = lastEventWhere isStepFinishEvent (eventsOf demoOpenLines) := by
  have h := session_first_wins_terminal_last demoCursorLines demoOpenLines "" ""
    demoCursorResp demoOpenResp
  exact ⟨h.1 (by decide) rfl, h.2.1, h.2.2.1 (by decide) rfl, h.2.2.2⟩
